import Mathlib

/-!
Shallow embedding of `src/xampp_gui_control/xampp-control.py`, the service
orchestration and privilege-escalation engine of the XAMPP control panel.

External process execution (`subprocess.run`, `os.access`, `which`, `pgrep`)
is abstracted as an environment function mapping each concrete command line
to its outcome; the Python functions are then translated statement by
statement on top of that abstraction.  GUI side effects (button state
changes, log lines, status refreshes) are recorded as explicit event traces
so that ordering and serialization properties can be stated.
-/

/-- Outcome of one `subprocess.run` call: normal completion with an exit
code and captured output, a `subprocess.TimeoutExpired` exception, or any
other exception carrying its text (`str(e)`). -/
inductive ProcOutcome where
  | completed (returncode : Int) (stdout stderr : String)
  | timedOut
  | failed (message : String)
deriving DecidableEq

/-- The host environment: what each command line does when executed. -/
abbrev Env : Type := List String → ProcOutcome

/-- The `(succeeded, stdout, stderr)` triple returned by `run_command` and
`run_xampp_command` (lines 249, 279, 286, 291, 296, 299 of the source).
Note the numeric exit code itself is not part of the returned triple. -/
structure CmdResult where
  succeeded : Bool
  stdout : String
  stderr : String
deriving DecidableEq

/-- `XAMPPController.run_command` (source lines 237-255): run a command
with a 30-second bound; on completion return `(returncode == 0, stdout,
stderr)`; on `TimeoutExpired` return `(False, "", "Command timed out")`;
on any other exception return `(False, "", str(e))`.  Totality of this
function is the embedding of "never throws to its caller". -/
def run_command (env : Env) (command : List String) : CmdResult :=
  match env command with
  | .completed returncode stdout stderr => ⟨returncode == 0, stdout, stderr⟩
  | .timedOut => ⟨false, "", "Command timed out"⟩
  | .failed e => ⟨false, "", e⟩

/-- The four authentication methods probed by `detect_auth_method`. -/
inductive AuthMethod where
  | direct
  | gksu
  | pkexec
  | sudo
deriving DecidableEq

/-- Outcome of probing one escalation mechanism (`os.access` or
`which ...`): a boolean answer, or an exception while probing. -/
inductive ProbeOutcome where
  | ok (b : Bool)
  | error
deriving DecidableEq

/-- Host answers to the four probes run by `detect_auth_method`
(source lines 52-57); `sudoCheck` stands for the probe of the `sudo`
mechanism (`which sudo`). -/
structure AuthEnv where
  direct : ProbeOutcome
  gksu : ProbeOutcome
  pkexec : ProbeOutcome
  sudoCheck : ProbeOutcome

/-- The `for method, check in methods.items()` loop of
`detect_auth_method` (source lines 59-65): return the first method whose
check returns true; a check that raises is skipped (`except: continue`);
if the loop finishes, fall back to `'sudo'`. -/
def detectFrom : List (AuthMethod × ProbeOutcome) → AuthMethod
  | [] => .sudo
  | (m, o) :: rest =>
    match o with
    | .ok true => m
    | .ok false => detectFrom rest
    | .error => detectFrom rest

/-- `XAMPPController.detect_auth_method` (source lines 50-65).  The Python
dict literal preserves insertion order, so the checks run in the order
direct, gksu, pkexec, sudo. -/
def detect_auth_method (env : AuthEnv) : AuthMethod :=
  detectFrom [(.direct, env.direct), (.gksu, env.gksu),
              (.pkexec, env.pkexec), (.sudo, env.sudoCheck)]

/-- A probe counts as "available" exactly when it ran and answered true. -/
def available : ProbeOutcome → Bool
  | .ok b => b
  | .error => false

/-- The `methods` list of `run_xampp_command` (source lines 260-269): the
four candidate command lines, in order: direct execution, `sudo -n`,
`pkexec`, and `sudo` wrapped in `timeout 1`. -/
def xampp_methods (script action : String) : List (List String) :=
  [[script, action],
   ["sudo", "-n", script, action],
   ["pkexec", script, action],
   ["timeout", "1", "sudo", script, action]]

/-- The `for i, command in enumerate(methods)` loop of `run_xampp_command`
(source lines 271-299), together with the list of command lines actually
attempted (the source logs `Trying method i+1: ...` right before each
attempt).  Exit code 0 returns `(True, stdout, stderr)` at once; a non-zero
exit, a timeout, or an exception advances to the next candidate unless the
current one is the last, in which case it returns `(False, stdout, stderr)`,
`(False, "", "All methods timed out")`, or `(False, "", str(e))`
respectively.  The `[]` case is the `return False, "", "All methods
failed"` after the loop (source line 299), which is dead code whenever the
list is non-empty. -/
def runChainFrom (env : Env) : List (List String) → CmdResult × List (List String)
  | [] => (⟨false, "", "All methods failed"⟩, [])
  | command :: rest =>
    match env command with
    | .completed returncode stdout stderr =>
      if returncode == 0 then (⟨true, stdout, stderr⟩, [command])
      else if rest.isEmpty then (⟨false, stdout, stderr⟩, [command])
      else ((runChainFrom env rest).1, command :: (runChainFrom env rest).2)
    | .timedOut =>
      if rest.isEmpty then (⟨false, "", "All methods timed out"⟩, [command])
      else ((runChainFrom env rest).1, command :: (runChainFrom env rest).2)
    | .failed e =>
      if rest.isEmpty then (⟨false, "", e⟩, [command])
      else ((runChainFrom env rest).1, command :: (runChainFrom env rest).2)

/-- The fields of the `XAMPPController` object that the escalation chain
and the service operations read: the control-script path (`self.
xampp_script`, source line 29) and the startup-detected authentication
method (`self.auth_method`, source line 39). -/
structure Controller where
  xampp_script : String
  auth_method : AuthMethod

/-- `XAMPPController.run_xampp_command` (source lines 257-299), returning
the result triple and the ordered list of command lines attempted. -/
def Controller.run_xampp_command (c : Controller) (env : Env) (action : String) :
    CmdResult × List (List String) :=
  runChainFrom env (xampp_methods c.xampp_script action)

/-- Whether one attempt outcome is `result.returncode == 0` (the only
condition under which the chain stops with success, source line 276). -/
def exitZero : ProcOutcome → Bool
  | .completed returncode _ _ => returncode == 0
  | .timedOut => false
  | .failed _ => false

/-- What the last loop iteration of `run_xampp_command` returns when its
attempt does not exit 0 (source lines 283-296): the attempt's own stdout
and stderr on a non-zero exit, the synthetic "All methods timed out" on a
timeout, or the exception text on a launch failure. -/
def lastFailResult (env : Env) (command : List String) : CmdResult :=
  match env command with
  | .completed _ stdout stderr => ⟨false, stdout, stderr⟩
  | .timedOut => ⟨false, "", "All methods timed out"⟩
  | .failed e => ⟨false, "", e⟩

/-- Observable side effects of the service operations: toggle/restart
button state changes (`config(state=...)`, the code's only in-flight
marker), invocations of the escalation chain, log lines, and requests to
refresh the displayed status (`self.update_status()`). -/
inductive Event where
  | buttonDisabled (service : String)
  | buttonEnabled (service : String)
  | chainInvoked (action : String)
  | logged (message : String)
  | statusRefreshRequested
deriving DecidableEq

/-- The three service keys known to the controller (source lines 88-92):
`apache`, `mysql`, `ftp`; these are the keys of `self.service_buttons`. -/
def service_keys : List String := ["apache", "mysql", "ftp"]

/-- Python's `str.upper()` as applied to the ASCII service keys
(`service.upper()`, source lines 310, 312, ...). -/
def pyUpper (s : String) : String := String.mk (s.data.map Char.toUpper)

/-- The body of the background task spawned by
`XAMPPController.start_service` (source lines 301-319), as the ordered
trace of its observable effects: disable the service's button if it has
one, run the chain on `"start" + service`, log the outcome, re-enable the
button, then request a status refresh.  The task reads no busy flag or
other state: its trace depends only on its arguments. -/
def start_service_task (c : Controller) (env : Env) (service : String) : List Event :=
  (if service ∈ service_keys then [Event.buttonDisabled service] else [])
  ++ [Event.chainInvoked ("start" ++ service),
      Event.logged (if (c.run_xampp_command env ("start" ++ service)).1.succeeded
        then pyUpper service ++ " started successfully"
        else "Failed to start " ++ pyUpper service)]
  ++ (if service ∈ service_keys then [Event.buttonEnabled service] else [])
  ++ [Event.statusRefreshRequested]

/-- The body of the background task spawned by
`XAMPPController.stop_service` (source lines 321-339), symmetric to
`start_service_task` with action `"stop" + service`. -/
def stop_service_task (c : Controller) (env : Env) (service : String) : List Event :=
  (if service ∈ service_keys then [Event.buttonDisabled service] else [])
  ++ [Event.chainInvoked ("stop" ++ service),
      Event.logged (if (c.run_xampp_command env ("stop" ++ service)).1.succeeded
        then pyUpper service ++ " stopped successfully"
        else "Failed to stop " ++ pyUpper service)]
  ++ (if service ∈ service_keys then [Event.buttonEnabled service] else [])
  ++ [Event.statusRefreshRequested]

/-- The body of the background task spawned by
`XAMPPController.restart_service` (source lines 341-350): log, run the
stop chain, run the start chain, log, refresh.  It never touches any
button state and ignores both chain results. -/
def restart_service_task (_c : Controller) (_env : Env) (service : String) : List Event :=
  [Event.logged ("Restarting " ++ pyUpper service ++ "..."),
   Event.chainInvoked ("stop" ++ service),
   Event.chainInvoked ("start" ++ service),
   Event.logged (pyUpper service ++ " restarted"),
   Event.statusRefreshRequested]

/-- The body of the background task spawned by `XAMPPController.start_all`
(source lines 352-362): run the chain once with the bare action `"start"`,
log the outcome, refresh every status. -/
def start_all_task (c : Controller) (env : Env) : List Event :=
  [Event.chainInvoked "start",
   Event.logged (if (c.run_xampp_command env "start").1.succeeded
     then "All services started successfully"
     else "Failed to start all services"),
   Event.statusRefreshRequested]

/-- The body of the background task spawned by `XAMPPController.stop_all`
(source lines 364-374). -/
def stop_all_task (c : Controller) (env : Env) : List Event :=
  [Event.chainInvoked "stop",
   Event.logged (if (c.run_xampp_command env "stop").1.succeeded
     then "All services stopped successfully"
     else "Failed to stop all services"),
   Event.statusRefreshRequested]

/-- The body of the background task spawned by
`XAMPPController.restart_all` (source lines 376-386). -/
def restart_all_task (c : Controller) (env : Env) : List Event :=
  [Event.chainInvoked "restart",
   Event.logged (if (c.run_xampp_command env "restart").1.succeeded
     then "All services restarted successfully"
     else "Failed to restart all services"),
   Event.statusRefreshRequested]

/-- The body of the background task spawned by
`XAMPPController.reload_xampp` (source lines 388-398). -/
def reload_xampp_task (c : Controller) (env : Env) : List Event :=
  [Event.chainInvoked "reload",
   Event.logged (if (c.run_xampp_command env "reload").1.succeeded
     then "XAMPP configuration reloaded"
     else "Failed to reload XAMPP configuration"),
   Event.statusRefreshRequested]

/-- Whether an event is a per-service button (busy-marker) mutation. -/
def touchesButton : Event → Bool
  | .buttonDisabled _ => true
  | .buttonEnabled _ => true
  | .chainInvoked _ => false
  | .logged _ => false
  | .statusRefreshRequested => false

/-- `Interleaving t1 t2 g` holds when the global trace `g` is a possible
schedule of two task traces `t1` and `t2` running on independent threads.
The source spawns each operation on its own `threading.Thread` with no
lock, so every interleaving of two spawned task bodies is a schedule the
program admits. -/
inductive Interleaving : List Event → List Event → List Event → Prop where
  | nil : Interleaving [] [] []
  | left {x : Event} {xs ys zs : List Event} :
      Interleaving xs ys zs → Interleaving (x :: xs) ys (x :: zs)
  | right {y : Event} {xs ys zs : List Event} :
      Interleaving xs ys zs → Interleaving xs (y :: ys) (y :: zs)

/-- `self.service_status.get(service, False)` (source line 212): a Python
dict lookup with default `False`, over the dict updated from observed
process status by `update_toggle_button`. -/
def dictGet (d : List (String × Bool)) (key : String) : Bool :=
  match d.find? (fun p => p.1 == key) with
  | some p => p.2
  | none => false

/-- `XAMPPController.toggle_service` (source lines 210-215): dispatch on
the last observed running state, producing the stop task when the service
is observed running and the start task otherwise. -/
def toggle_service_events (c : Controller) (env : Env)
    (service_status : List (String × Bool)) (service : String) : List Event :=
  if dictGet service_status service then stop_service_task c env service
  else start_service_task c env service

/-- Outcome of one `pgrep -f <pattern>` call: an exit code, or an
exception. -/
inductive PgrepOutcome where
  | result (returncode : Int)
  | raised
deriving DecidableEq

/-- `XAMPPController.check_service_status` (source lines 400-414),
returning the boolean result and the list of `pgrep` patterns actually
queried: `httpd` for apache, `mysqld` for mysql, `proftpd` for ftp; any
other key returns `False` without running anything; an exception from
`pgrep` also yields `False`. -/
def check_service_status (pgrep : String → PgrepOutcome) (service : String) :
    Bool × List String :=
  if service = "apache" then
    match pgrep "httpd" with
    | .result returncode => (returncode == 0, ["httpd"])
    | .raised => (false, ["httpd"])
  else if service = "mysql" then
    match pgrep "mysqld" with
    | .result returncode => (returncode == 0, ["mysqld"])
    | .raised => (false, ["mysqld"])
  else if service = "ftp" then
    match pgrep "proftpd" with
    | .result returncode => (returncode == 0, ["proftpd"])
    | .raised => (false, ["proftpd"])
  else (false, [])

/-- A concrete controller with the default install path (source line 29). -/
def c0 : Controller := ⟨"/opt/lampp/lampp", AuthMethod.sudo⟩

/-- A host on which every command completes with exit code 1 and no
output. -/
def env0 : Env := fun _ => ProcOutcome.completed 1 "" ""

/-- A host on which only the `pkexec` invocation of `startapache`
succeeds; every other command exits 1. -/
def wenv1 : Env := fun command =>
  if command = ["pkexec", "/opt/lampp/lampp", "startapache"]
  then ProcOutcome.completed 0 "ok" ""
  else ProcOutcome.completed 1 "" "denied"

/-- A host on which every command times out. -/
def wenv2 : Env := fun _ => ProcOutcome.timedOut

theorem detectFrom_cons (m : AuthMethod) (o : ProbeOutcome)
    (rest : List (AuthMethod × ProbeOutcome)) :
    detectFrom ((m, o) :: rest) = if available o then m else detectFrom rest := by
  rcases o with b | _
  · cases b <;> rfl
  · rfl

/-- Claim C7: `detect_auth_method` checks direct execute permission, then
`gksu`, then `pkexec`, then `sudo`, in that fixed order, returning the
first available mechanism; a probe error counts as unavailable and
detection continues; if no check succeeds the result defaults to `sudo`
(so the final `sudo` probe's answer cannot change the result). -/
theorem detect_auth_order (env : AuthEnv) :
    detect_auth_method env =
      if available env.direct then .direct
      else if available env.gksu then .gksu
      else if available env.pkexec then .pkexec
      else .sudo := by
  show detectFrom [(.direct, env.direct), (.gksu, env.gksu),
    (.pkexec, env.pkexec), (.sudo, env.sudoCheck)] = _
  rw [detectFrom_cons, detectFrom_cons, detectFrom_cons, detectFrom_cons]
  simp only [detectFrom, ite_self]

theorem runChainFrom_first_success (env : Env) :
    ∀ (methods : List (List String)) (k : Nat) (hk : k < methods.length)
      (out err : String),
      (∀ j (hj : j < k), exitZero (env (methods.get ⟨j, Nat.lt_trans hj hk⟩)) = false) →
      env (methods.get ⟨k, hk⟩) = ProcOutcome.completed 0 out err →
      runChainFrom env methods = (⟨true, out, err⟩, methods.take (k + 1))
  | [], k, hk, _, _, _, _ => absurd hk (Nat.not_lt_zero k)
  | command :: rest, 0, _, out, err, _, hsucc => by
      have hsucc' : env command = ProcOutcome.completed 0 out err := hsucc
      simp [runChainFrom, hsucc']
  | command :: rest, k + 1, hk, out, err, hbefore, hsucc => by
      have hrest : k < rest.length := Nat.lt_of_succ_lt_succ hk
      have h0 : exitZero (env command) = false := hbefore 0 (Nat.succ_pos k)
      have ih := runChainFrom_first_success env rest k hrest out err
        (fun j hj => hbefore (j + 1) (Nat.succ_lt_succ hj)) hsucc
      have hne : rest.isEmpty = false := by
        cases rest with
        | nil => exact absurd hrest (by simp)
        | cons a t => rfl
      cases henv : env command with
      | completed code o e =>
        have hcode : (code == 0) = false := by
          rw [henv] at h0
          simpa [exitZero] using h0
        simp [runChainFrom, henv, hcode, hne, ih, List.take]
      | timedOut =>
        simp [runChainFrom, henv, hne, ih, List.take]
      | failed e =>
        simp [runChainFrom, henv, hne, ih, List.take]

theorem runChainFrom_cons_of_fail (env : Env) (command : List String)
    (rest : List (List String)) (h0 : exitZero (env command) = false)
    (hne : rest ≠ []) :
    runChainFrom env (command :: rest) =
      ((runChainFrom env rest).1, command :: (runChainFrom env rest).2) := by
  have hne' : rest.isEmpty = false := by
    cases rest with
    | nil => exact absurd rfl hne
    | cons a t => rfl
  cases henv : env command with
  | completed code o e =>
    have hcode : (code == 0) = false := by
      rw [henv] at h0
      simpa [exitZero] using h0
    simp only [runChainFrom]
    rw [henv]
    simp [hcode, hne']
  | timedOut =>
    simp only [runChainFrom]
    rw [henv]
    simp [hne']
  | failed e =>
    simp only [runChainFrom]
    rw [henv]
    simp [hne']

theorem runChainFrom_all_fail (env : Env) :
    ∀ (command : List String) (methods : List (List String)),
      (∀ cmd ∈ command :: methods, exitZero (env cmd) = false) →
      runChainFrom env (command :: methods) =
        (lastFailResult env ((command :: methods).getLast (List.cons_ne_nil command methods)),
         command :: methods)
  | command, [], hfail => by
      have h0 : exitZero (env command) = false := hfail command (by simp)
      cases henv : env command with
      | completed code o e =>
        have hcode : (code == 0) = false := by
          rw [henv] at h0
          simpa [exitZero] using h0
        simp [runChainFrom, henv, hcode, lastFailResult, List.getLast]
      | timedOut =>
        simp [runChainFrom, henv, lastFailResult, List.getLast]
      | failed e =>
        simp [runChainFrom, henv, lastFailResult, List.getLast]
  | command, m :: rest, hfail => by
      have ih := runChainFrom_all_fail env m rest
        (fun cmd hc => hfail cmd (List.mem_cons_of_mem command hc))
      have h0 : exitZero (env command) = false := hfail command (by simp)
      have hlast : (command :: m :: rest).getLast (List.cons_ne_nil command (m :: rest)) =
          (m :: rest).getLast (List.cons_ne_nil m rest) := rfl
      rw [runChainFrom_cons_of_fail env command (m :: rest) h0 (List.cons_ne_nil m rest),
        ih, hlast]

/-- Claim C1: for every action, the escalation chain's candidate list is
exactly the four invocations direct execution, `sudo -n`, `pkexec`, and
`sudo` under `timeout 1`, in that fixed order; if the candidates before
position `k` do not exit 0 and the candidate at position `k` exits 0 with
output `out`/`err`, the chain stops there, returns `(True, out, err)`, and
the attempted invocations are exactly the first `k + 1` candidates, so the
later ones are never invoked. -/
theorem chain_first_success (c : Controller) (env : Env) (action : String)
    (k : Nat) (hk : k < (xampp_methods c.xampp_script action).length)
    (out err : String)
    (hbefore : ∀ j (hj : j < k),
      exitZero (env ((xampp_methods c.xampp_script action).get ⟨j, Nat.lt_trans hj hk⟩)) = false)
    (hsucc : env ((xampp_methods c.xampp_script action).get ⟨k, hk⟩) =
      ProcOutcome.completed 0 out err) :
    xampp_methods c.xampp_script action =
      [[c.xampp_script, action],
       ["sudo", "-n", c.xampp_script, action],
       ["pkexec", c.xampp_script, action],
       ["timeout", "1", "sudo", c.xampp_script, action]] ∧
    c.run_xampp_command env action =
      (⟨true, out, err⟩, (xampp_methods c.xampp_script action).take (k + 1)) :=
  ⟨rfl, runChainFrom_first_success env (xampp_methods c.xampp_script action)
    k hk out err hbefore hsucc⟩

/-- Witness for C1: on a host where direct execution and `sudo -n` exit 1
and `pkexec` exits 0, the chain succeeds with candidate 3's output and the
fourth candidate is never attempted. -/
theorem chain_first_success_witness :
    Controller.run_xampp_command c0 wenv1 "startapache" =
      (⟨true, "ok", ""⟩,
       [["/opt/lampp/lampp", "startapache"],
        ["sudo", "-n", "/opt/lampp/lampp", "startapache"],
        ["pkexec", "/opt/lampp/lampp", "startapache"]]) := by
  have h := chain_first_success c0 wenv1 "startapache" 2 (by decide) "ok" ""
    (by decide) (by decide)
  rw [h.2]
  decide

/-- Claim C4 counterexample: on a host where all four candidates exit 1
producing no output at all, the chain returns `succeeded = false` with an
EMPTY failure message — neither the last attempt's (empty) stderr is
non-empty, nor is any synthetic "all escalation methods failed" text
substituted (the source's `"All methods failed"` line is dead code). -/
theorem allfail_message_cex :
    (Controller.run_xampp_command c0 env0 "start").1.succeeded = false ∧
    (Controller.run_xampp_command c0 env0 "start").1.stderr = "" ∧
    (Controller.run_xampp_command c0 env0 "start").1.stdout = "" := by
  refine ⟨by decide, by decide, by decide⟩

/-- Claim C4 as amended: whenever all four escalation candidates fail, the
chain returns `succeeded = false`, the attempted list is all four
candidates, and the failure message is exactly what the LAST attempt
produced: its stderr if it completed with a non-zero exit (possibly the
empty string), the synthetic "All methods timed out" if it timed out, or
the exception text if launching it failed; the synthetic "All methods
failed" message of the source is unreachable. -/
theorem chain_all_fail (c : Controller) (env : Env) (action : String)
    (hfail : ∀ cmd ∈ xampp_methods c.xampp_script action, exitZero (env cmd) = false) :
    c.run_xampp_command env action =
      (lastFailResult env ["timeout", "1", "sudo", c.xampp_script, action],
       xampp_methods c.xampp_script action) ∧
    (c.run_xampp_command env action).1.succeeded = false := by
  have h := runChainFrom_all_fail env [c.xampp_script, action]
    [["sudo", "-n", c.xampp_script, action],
     ["pkexec", c.xampp_script, action],
     ["timeout", "1", "sudo", c.xampp_script, action]] hfail
  refine ⟨h, ?_⟩
  rw [show c.run_xampp_command env action =
    (lastFailResult env ["timeout", "1", "sudo", c.xampp_script, action],
     xampp_methods c.xampp_script action) from h]
  cases henv : env ["timeout", "1", "sudo", c.xampp_script, action] <;>
    simp [lastFailResult, henv]

/-- Witness for C4 (amended): on a host where every command times out, the
chain fails with the "All methods timed out" message after attempting all
four candidates. -/
theorem chain_all_fail_witness :
    Controller.run_xampp_command c0 wenv2 "stopmysql" =
      (⟨false, "", "All methods timed out"⟩, xampp_methods "/opt/lampp/lampp" "stopmysql") ∧
    (Controller.run_xampp_command c0 wenv2 "stopmysql").1.succeeded = false := by
  have h := chain_all_fail c0 wenv2 "stopmysql" (by decide)
  refine ⟨?_, h.2⟩
  rw [h.1]
  decide

/-- Claim C6 counterexample: `run_command` does NOT preserve the exit code
on a non-zero exit — two hosts whose only difference is the failing exit
code (2 versus 3) produce identical results, because the returned triple
drops the code; and the synthetic timeout stderr is "Command timed out",
which differs from the claimed text "command timed out". -/
theorem runcmd_exitcode_cex :
    run_command (fun _ => ProcOutcome.completed 2 "out" "err") ["/opt/lampp/lampp", "start"] =
      run_command (fun _ => ProcOutcome.completed 3 "out" "err") ["/opt/lampp/lampp", "start"] ∧
    (2 : Int) ≠ 3 ∧
    (run_command (fun _ => ProcOutcome.timedOut) ["/opt/lampp/lampp", "start"]).stderr =
      "Command timed out" ∧
    "Command timed out" ≠ "command timed out" := by
  exact ⟨rfl, by decide, rfl, by decide⟩

/-- Claim C6 as amended: `run_command` never throws (it is total): on a
completed command it returns `succeeded = (returncode == 0)` with stdout
and stderr preserved but the numeric exit code discarded; on a timeout it
returns `succeeded = false` with the synthetic stderr "Command timed out";
on a launch failure it returns `succeeded = false` with stderr carrying
the underlying reason. -/
theorem runcmd_contract (env : Env) (command : List String) :
    (∀ returncode stdout stderr,
      env command = ProcOutcome.completed returncode stdout stderr →
      run_command env command = ⟨returncode == 0, stdout, stderr⟩) ∧
    (env command = ProcOutcome.timedOut →
      run_command env command = ⟨false, "", "Command timed out"⟩) ∧
    (∀ e, env command = ProcOutcome.failed e →
      run_command env command = ⟨false, "", e⟩) := by
  refine ⟨fun rc so se h => ?_, fun h => ?_, fun e h => ?_⟩ <;>
    simp [run_command, h]

/-- Witness for C6 (amended): concrete instances of all three failure
branches of the `run_command` contract. -/
theorem runcmd_contract_witness :
    run_command (fun _ => ProcOutcome.completed 2 "o" "e") ["/opt/lampp/lampp", "stop"] =
      ⟨false, "o", "e"⟩ ∧
    run_command (fun _ => ProcOutcome.timedOut) ["/opt/lampp/lampp", "stop"] =
      ⟨false, "", "Command timed out"⟩ ∧
    run_command (fun _ => ProcOutcome.failed "No such file or directory")
        ["/opt/lampp/lampp", "stop"] =
      ⟨false, "", "No such file or directory"⟩ := by
  refine ⟨?_, ?_, ?_⟩
  · have h := (runcmd_contract (fun _ => ProcOutcome.completed 2 "o" "e")
      ["/opt/lampp/lampp", "stop"]).1 2 "o" "e" rfl
    rw [h]
    decide
  · exact (runcmd_contract (fun _ => ProcOutcome.timedOut)
      ["/opt/lampp/lampp", "stop"]).2.1 rfl
  · exact (runcmd_contract (fun _ => ProcOutcome.failed "No such file or directory")
      ["/opt/lampp/lampp", "stop"]).2.2 "No such file or directory" rfl

/-- Claim C8: the escalation chain's behaviour — which candidates are
attempted, in what order, and the returned result — is independent of the
`AuthMethod` detected at startup: two controllers differing only in
`auth_method` produce identical attempt lists and results for every host
environment and every action. -/
theorem chain_auth_independent (script : String) (a1 a2 : AuthMethod)
    (env : Env) (action : String) :
    Controller.run_xampp_command ⟨script, a1⟩ env action =
      Controller.run_xampp_command ⟨script, a2⟩ env action := rfl

/-- Claim C2 counterexample: the source serializes nothing.  Each
start/stop/restart request spawns an unsynchronized daemon thread, so
every interleaving of two task traces is a schedule the program admits;
below is one admitted schedule of two start requests for the same service
`apache` in which the second request's chain invocation happens while the
first request is still in flight (its button is disabled, the code's only
busy marker, and it has not yet been re-enabled).  The second request is
executed — its trace contains the chain invocation — not rejected: the
task consults no busy flag (it is a function of its arguments only), and
the only log lines it emits are the outcome messages. -/
theorem busy_rejection_cex :
    Interleaving (start_service_task c0 env0 "apache") (start_service_task c0 env0 "apache")
      [Event.buttonDisabled "apache", Event.chainInvoked "startapache",
       Event.buttonDisabled "apache", Event.chainInvoked "startapache",
       Event.logged "Failed to start APACHE", Event.buttonEnabled "apache",
       Event.statusRefreshRequested,
       Event.logged "Failed to start APACHE", Event.buttonEnabled "apache",
       Event.statusRefreshRequested] ∧
    Event.chainInvoked "startapache" ∈ start_service_task c0 env0 "apache" ∧
    Event.logged "Failed to start APACHE" ∈ start_service_task c0 env0 "apache" := by
  refine ⟨?_, by decide, by decide⟩
  have h : start_service_task c0 env0 "apache" =
      [Event.buttonDisabled "apache", Event.chainInvoked "startapache",
       Event.logged "Failed to start APACHE", Event.buttonEnabled "apache",
       Event.statusRefreshRequested] := by decide
  rw [h]
  exact .left (.left (.right (.right (.right (.right (.right (.left (.left (.left .nil)))))))))

/-- Claim C2 as amended: the code maintains no Busy flag and rejects
nothing.  Every start/stop/restart request, regardless of any in-flight
operation, executes the escalation chain (its task trace always contains
the chain invocation); serialization is limited to disabling the
service's toggle button for the duration of a start/stop, while restart
touches no button state at all, so concurrent operations on the same
service are possible (see the counterexample's admitted schedule). -/
theorem no_busy_rejection (c : Controller) (env : Env) (service : String) :
    Event.chainInvoked ("start" ++ service) ∈ start_service_task c env service ∧
    Event.chainInvoked ("stop" ++ service) ∈ stop_service_task c env service ∧
    Event.chainInvoked ("stop" ++ service) ∈ restart_service_task c env service ∧
    Event.chainInvoked ("start" ++ service) ∈ restart_service_task c env service ∧
    (restart_service_task c env service).all (fun e => !(touchesButton e)) = true := by
  refine ⟨?_, ?_, ?_, ?_, ?_⟩ <;>
    simp [start_service_task, stop_service_task, restart_service_task, touchesButton]

/-- Claim C3 counterexample: in the start task the button is re-enabled
(the code's in-flight marker returns to not-busy, source line 316) BEFORE
`update_status` is requested (source line 317): the trace's only status
refresh request comes after the button-enabled event, so no refresh
happens before the service is marked not-busy again. -/
theorem refresh_before_unbusy_cex :
    start_service_task c0 env0 "apache" =
      [Event.buttonDisabled "apache", Event.chainInvoked "startapache",
       Event.logged "Failed to start APACHE", Event.buttonEnabled "apache",
       Event.statusRefreshRequested] ∧
    Event.buttonEnabled "apache" ∈ (start_service_task c0 env0 "apache").take 4 ∧
    Event.statusRefreshRequested ∉ (start_service_task c0 env0 "apache").take 4 := by
  refine ⟨by decide, by decide, by decide⟩

/-- Claim C3 as amended: when `start(S)` completes, a status refresh for
`S` has been requested exactly once, as the final step of the task — but
only AFTER the service's button is re-enabled (the busy marker returns to
false), not before: the button-enabled event is at position 3 and the
refresh request at position 4, with no refresh request anywhere earlier. -/
theorem refresh_after_unbusy (c : Controller) (env : Env) (service : String)
    (h : service ∈ service_keys) :
    (start_service_task c env service)[3]? = some (Event.buttonEnabled service) ∧
    (start_service_task c env service)[4]? = some Event.statusRefreshRequested ∧
    Event.statusRefreshRequested ∉ (start_service_task c env service).take 4 := by
  simp [start_service_task, h]

/-- Witness for C3 (amended), at the concrete service `apache` on a host
where every command fails. -/
theorem refresh_after_unbusy_witness :
    (start_service_task c0 env0 "apache")[3]? = some (Event.buttonEnabled "apache") ∧
    (start_service_task c0 env0 "apache")[4]? = some Event.statusRefreshRequested ∧
    Event.statusRefreshRequested ∉ (start_service_task c0 env0 "apache").take 4 :=
  refresh_after_unbusy c0 env0 "apache" (by decide)

/-- Claim C5 counterexample: there is no global bulk-operation flag.  Bulk
tasks are spawned on unsynchronized daemon threads, so every interleaving
of two bulk task traces is a schedule the program admits; below is one
admitted schedule of `start_all` and `stop_all` in which both chain
invocations occur before either task completes — two all-services
operations in flight concurrently.  (The second half of the claim is
true: the bulk tasks never touch per-service button state.) -/
theorem bulk_exclusion_cex :
    Interleaving (start_all_task c0 env0) (stop_all_task c0 env0)
      [Event.chainInvoked "start", Event.chainInvoked "stop",
       Event.logged "Failed to stop all services", Event.statusRefreshRequested,
       Event.logged "Failed to start all services", Event.statusRefreshRequested] ∧
    (start_all_task c0 env0).all (fun e => !(touchesButton e)) = true ∧
    (stop_all_task c0 env0).all (fun e => !(touchesButton e)) = true := by
  refine ⟨?_, by decide, by decide⟩
  have h1 : start_all_task c0 env0 =
      [Event.chainInvoked "start", Event.logged "Failed to start all services",
       Event.statusRefreshRequested] := by decide
  have h2 : stop_all_task c0 env0 =
      [Event.chainInvoked "stop", Event.logged "Failed to stop all services",
       Event.statusRefreshRequested] := by decide
  rw [h1, h2]
  exact .left (.right (.right (.right (.left (.left .nil)))))

/-- Claim C5 as amended: the bulk operations `start_all`, `stop_all`,
`restart_all`, and `reload_xampp` check no flag at all — global or
per-service.  Each unconditionally invokes the escalation chain as its
first step, and an admitted schedule interleaves any two of them (shown
for `start_all` with `stop_all`), so bulk operations are NOT mutually
exclusive; the true half of the claim stands: no bulk task ever checks or
sets per-service button (busy) state. -/
theorem bulk_no_flag (c : Controller) (env : Env) :
    (start_all_task c env).all (fun e => !(touchesButton e)) = true ∧
    (stop_all_task c env).all (fun e => !(touchesButton e)) = true ∧
    (restart_all_task c env).all (fun e => !(touchesButton e)) = true ∧
    (reload_xampp_task c env).all (fun e => !(touchesButton e)) = true ∧
    (start_all_task c env).head? = some (Event.chainInvoked "start") ∧
    (stop_all_task c env).head? = some (Event.chainInvoked "stop") ∧
    (restart_all_task c env).head? = some (Event.chainInvoked "restart") ∧
    (reload_xampp_task c env).head? = some (Event.chainInvoked "reload") ∧
    Interleaving (start_all_task c env) (stop_all_task c env)
      (Event.chainInvoked "start" :: stop_all_task c env ++ (start_all_task c env).drop 1) := by
  refine ⟨?_, ?_, ?_, ?_, rfl, rfl, rfl, rfl, ?_⟩
  · simp [start_all_task, touchesButton]
  · simp [stop_all_task, touchesButton]
  · simp [restart_all_task, touchesButton]
  · simp [reload_xampp_task, touchesButton]
  · exact .left (.right (.right (.right (.left (.left .nil)))))

/-- Claim C9: `toggle_service` dispatches on the last observed state
(`self.service_status.get(service, False)`): when the service is observed
running it issues the stop action on it, and when it is observed not
running (or absent from the dict) it issues the start action. -/
theorem toggle_dispatch (c : Controller) (env : Env)
    (service_status : List (String × Bool)) (service : String) :
    (dictGet service_status service = true →
      toggle_service_events c env service_status service = stop_service_task c env service ∧
      Event.chainInvoked ("stop" ++ service) ∈ toggle_service_events c env service_status service) ∧
    (dictGet service_status service = false →
      toggle_service_events c env service_status service = start_service_task c env service ∧
      Event.chainInvoked ("start" ++ service) ∈ toggle_service_events c env service_status service) := by
  constructor
  · intro h
    constructor
    · simp [toggle_service_events, h]
    · simp [toggle_service_events, h, stop_service_task]
  · intro h
    constructor
    · simp [toggle_service_events, h]
    · simp [toggle_service_events, h, start_service_task]

/-- Witness for C9: with `apache` observed running, toggling it issues the
stop action; with `mysql` absent from the status dict (default `False`),
toggling it issues the start action. -/
theorem toggle_dispatch_witness :
    Event.chainInvoked "stopapache" ∈
      toggle_service_events c0 env0 [("apache", true)] "apache" ∧
    Event.chainInvoked "startmysql" ∈
      toggle_service_events c0 env0 [("apache", true)] "mysql" := by
  constructor
  · exact ((toggle_dispatch c0 env0 [("apache", true)] "apache").1 (by decide)).2
  · exact ((toggle_dispatch c0 env0 [("apache", true)] "mysql").2 (by decide)).2

/-- Claim C10: for every service key outside `{apache, mysql, ftp}`,
`check_service_status` returns `False` running no `pgrep` query at all
(the returned probe list is empty); totality of the function embeds
"without raising". -/
theorem unknown_service_not_running (pgrep : String → PgrepOutcome) (service : String)
    (h : service ∉ (["apache", "mysql", "ftp"] : List String)) :
    check_service_status pgrep service = (false, []) := by
  simp only [List.mem_cons, List.mem_singleton, not_or] at h
  simp [check_service_status, h.1, h.2.1, h.2.2]

/-- Witness for C10: the unknown key `nginx` is reported not running with
no probe consulted, even on a host where every `pgrep` would succeed. -/
theorem unknown_service_not_running_witness :
    check_service_status (fun _ => PgrepOutcome.result 0) "nginx" = (false, []) :=
  unknown_service_not_running (fun _ => PgrepOutcome.result 0) "nginx" (by decide)
